import Mathlib

/-!
Shallow embedding of the wallpaper-scraper pipeline (src/scraper.py, src/config.py)
and proofs about its policies and coordinator.

External libraries used by the source (PIL image decoding, urllib URL parsing,
BeautifulSoup HTML parsing, validators) are modelled as explicit function
parameters; everything else is translated directly from the source.
-/

namespace Scraper

/-! ### MD5 (hashlib.md5), needed by `_generate_filename` (src/scraper.py:149) -/

/-- Truncation to a 32-bit word, `x % 2^32`. -/
def u32 (n : Nat) : Nat := n % 4294967296

/-- Left rotation of the 32-bit word `x` (for `x < 2^32`) by `s` bits. -/
def rotl32 (x s : Nat) : Nat := u32 ((x <<< s) ||| (x >>> (32 - s)))

/-- The 64 MD5 sine-derived round constants. -/
def md5K : List Nat :=
  [0xd76aa478, 0xe8c7b756, 0x242070db, 0xc1bdceee,
   0xf57c0faf, 0x4787c62a, 0xa8304613, 0xfd469501,
   0x698098d8, 0x8b44f7af, 0xffff5bb1, 0x895cd7be,
   0x6b901122, 0xfd987193, 0xa679438e, 0x49b40821,
   0xf61e2562, 0xc040b340, 0x265e5a51, 0xe9b6c7aa,
   0xd62f105d, 0x02441453, 0xd8a1e681, 0xe7d3fbc8,
   0x21e1cde6, 0xc33707d6, 0xf4d50d87, 0x455a14ed,
   0xa9e3e905, 0xfcefa3f8, 0x676f02d9, 0x8d2a4c8a,
   0xfffa3942, 0x8771f681, 0x6d9d6122, 0xfde5380c,
   0xa4beea44, 0x4bdecfa9, 0xf6bb4b60, 0xbebfbc70,
   0x289b7ec6, 0xeaa127fa, 0xd4ef3085, 0x04881d05,
   0xd9d4d039, 0xe6db99e5, 0x1fa27cf8, 0xc4ac5665,
   0xf4292244, 0x432aff97, 0xab9423a7, 0xfc93a039,
   0x655b59c3, 0x8f0ccc92, 0xffeff47d, 0x85845dd1,
   0x6fa87e4f, 0xfe2ce6e0, 0xa3014314, 0x4e0811a1,
   0xf7537e82, 0xbd3af235, 0x2ad7d2bb, 0xeb86d391]

/-- The 64 MD5 per-round shift amounts. -/
def md5S : List Nat :=
  [7, 12, 17, 22, 7, 12, 17, 22, 7, 12, 17, 22, 7, 12, 17, 22,
   5, 9, 14, 20, 5, 9, 14, 20, 5, 9, 14, 20, 5, 9, 14, 20,
   4, 11, 16, 23, 4, 11, 16, 23, 4, 11, 16, 23, 4, 11, 16, 23,
   6, 10, 15, 21, 6, 10, 15, 21, 6, 10, 15, 21, 6, 10, 15, 21]

/-- MD5 nonlinear function for round `i` (bitwise NOT is XOR with `2^32 - 1`). -/
def md5F (i b c d : Nat) : Nat :=
  if i < 16 then (b &&& c) ||| ((b ^^^ 4294967295) &&& d)
  else if i < 32 then (d &&& b) ||| ((d ^^^ 4294967295) &&& c)
  else if i < 48 then b ^^^ c ^^^ d
  else c ^^^ (b ||| (d ^^^ 4294967295))

/-- MD5 message-word index for round `i`. -/
def md5G (i : Nat) : Nat :=
  if i < 16 then i
  else if i < 32 then (5 * i + 1) % 16
  else if i < 48 then (3 * i + 5) % 16
  else (7 * i) % 16

/-- One MD5 round on state `(a, b, c, d)` with message words `M`. -/
def md5Round (M : List Nat) (i : Nat) : Nat × Nat × Nat × Nat → Nat × Nat × Nat × Nat
  | (a, b, c, d) =>
    let f := md5F i b c d
    let g := md5G i
    let bb := u32 (b + rotl32 (u32 (a + f + md5K.getD i 0 + M.getD g 0)) (md5S.getD i 0))
    (d, bb, b, c)

/-- Runs the remaining `fuel` MD5 rounds; round index is `64 - fuel`. -/
def md5Loop (M : List Nat) : Nat → Nat × Nat × Nat × Nat → Nat × Nat × Nat × Nat
  | 0, st => st
  | n + 1, st => md5Loop M n (md5Round M (63 - n) st)

/-- Little-endian decoding of a 64-byte block into 16 message words. -/
def leWords : List Nat → List Nat
  | b0 :: b1 :: b2 :: b3 :: rest =>
    (b0 + 256 * b1 + 65536 * b2 + 16777216 * b3) :: leWords rest
  | _ => []

/-- Compresses one 64-byte block into the MD5 state. -/
def md5Block (st : Nat × Nat × Nat × Nat) (block : List Nat) : Nat × Nat × Nat × Nat :=
  let M := leWords block
  match st with
  | (a, b, c, d) =>
    match md5Loop M 64 (a, b, c, d) with
    | (a1, b1, c1, d1) => (u32 (a + a1), u32 (b + b1), u32 (c + c1), u32 (d + d1))

/-- Folds `md5Block` over the 64-byte chunks of `bytes` (`fuel ≥` number of chunks). -/
def md5Chunks : Nat → Nat × Nat × Nat × Nat → List Nat → Nat × Nat × Nat × Nat
  | _, st, [] => st
  | 0, st, _ => st
  | fuel + 1, st, bytes => md5Chunks fuel (md5Block st (bytes.take 64)) (bytes.drop 64)

/-- The `k` low-order bytes of `n`, little-endian. -/
def leBytes : Nat → Nat → List Nat
  | 0, _ => []
  | k + 1, n => (n % 256) :: leBytes k (n / 256)

/-- MD5 padding: append `0x80`, zero bytes to 56 mod 64, then the 64-bit LE bit length. -/
def md5Pad (msg : List Nat) : List Nat :=
  let len := msg.length
  let zeros := (119 - len % 64) % 64
  msg ++ [128] ++ List.replicate zeros 0 ++ leBytes 8 ((8 * len) % 18446744073709551616)

/-- Lower-case hex digit for `n < 16`: digits map from code point 48, letters
from code point 87 (so 10 ↦ `a`). -/
def hexDigit (n : Nat) : Char :=
  if n < 10 then Char.ofNat (48 + n) else Char.ofNat (87 + n)

/-- Two-character hex rendering of one byte. -/
def byteHex (b : Nat) : List Char := [hexDigit (b / 16), hexDigit (b % 16)]

/-- The 16 digest bytes of the MD5 of a byte string. -/
def md5Digest (msg : List Nat) : List Nat :=
  let padded := md5Pad msg
  match md5Chunks padded.length (0x67452301, 0xefcdab89, 0x98badcfe, 0x10325476) padded with
  | (a, b, c, d) => leBytes 4 a ++ leBytes 4 b ++ leBytes 4 c ++ leBytes 4 d

/-- Model of `hashlib.md5(msg).hexdigest()`: the 32-character lower-case hex digest. -/
def md5hex (msg : List Nat) : String :=
  String.mk ((md5Digest msg).map byteHex).flatten

/-- UTF-8 encoding of one code point (`str.encode()` on one character). -/
def utf8Bytes (c : Char) : List Nat :=
  let n := c.toNat
  if n < 128 then [n]
  else if n < 2048 then [192 ||| (n >>> 6), 128 ||| (n &&& 63)]
  else if n < 65536 then
    [224 ||| (n >>> 12), 128 ||| ((n >>> 6) &&& 63), 128 ||| (n &&& 63)]
  else
    [240 ||| (n >>> 18), 128 ||| ((n >>> 12) &&& 63),
     128 ||| ((n >>> 6) &&& 63), 128 ||| (n &&& 63)]

/-- Model of `url.encode()`: the UTF-8 bytes of a string. -/
def strBytes (s : String) : List Nat := (s.toList.map utf8Bytes).flatten

/-! ### Metadata (the loosely-typed Python dict with keys title/description/alt/url) -/

/-- A metadata mapping; `none` means the key is absent from the dict. -/
structure Metadata where
  title : Option String := none
  description : Option String := none
  alt : Option String := none
  url : Option String := none
deriving DecidableEq

/-- Python `kw in text`: substring containment. -/
def strContains (text kw : String) : Bool := decide (kw.toList <:+: text.toList)

/-- Python `s.lower()`: character-wise lowercasing (over the ASCII range the
claims exercise), written structurally so the kernel can evaluate it. -/
def pyLower (s : String) : String := String.mk (s.toList.map Char.toLower)

/-- Python `s.endswith(t)`. -/
def strEndsWith (s t : String) : Bool := decide (t.toList <:+ s.toList)

/-- Python `s.startswith(t)`. -/
def strStartsWith (s t : String) : Bool := decide (t.toList <+: s.toList)

/-! ### Categorizer (src/scraper.py:61-92) and its keyword table (src/config.py:22-30) -/

/-- The table `config.CATEGORY_KEYWORDS`, in the dict's insertion order. -/
def CATEGORY_KEYWORDS : List (String × List String) :=
  [("nature", ["nature", "landscape", "mountain", "forest", "ocean", "beach", "sunset", "sunrise"]),
   ("space", ["space", "galaxy", "nebula", "planet", "star", "cosmos", "astronomy"]),
   ("abstract", ["abstract", "pattern", "geometric", "minimalist", "artistic"]),
   ("city", ["city", "urban", "skyline", "architecture", "building", "street"]),
   ("animals", ["animal", "wildlife", "cat", "dog", "bird", "lion", "tiger"]),
   ("tech", ["technology", "computer", "digital", "cyberpunk", "futuristic"]),
   ("fantasy", ["fantasy", "dragon", "magic", "medieval", "artwork"])]

namespace Categorizer

/-- Lines 69-80: the lower-cased present fields joined with one space. -/
def combinedText (metadata : Metadata) : String :=
  let text_fields :=
    (metadata.title.map pyLower).toList ++
    (metadata.description.map pyLower).toList ++
    (metadata.alt.map pyLower).toList ++
    (metadata.url.map pyLower).toList
  String.intercalate " " text_fields

/-- Line 85: `sum(1 for keyword in keywords if keyword in combined_text)`. -/
def score (keywords : List String) (combined_text : String) : Nat :=
  (keywords.filter (fun kw => strContains combined_text kw)).length

end Categorizer

/-- The loop of Python `max(..., key=...)`: the running best is replaced only by a
strictly greater element, so the first maximal element wins. -/
def pyMaxAux (best : String × Nat) : List (String × Nat) → String × Nat
  | [] => best
  | p :: rest => pyMaxAux (if best.2 < p.2 then p else best) rest

/-- Python `max(category_scores, key=category_scores.get)` over an insertion-ordered
association list (`none` on the empty dict, where Python would raise). -/
def pyMax : List (String × Nat) → Option (String × Nat)
  | [] => none
  | p :: rest => some (pyMaxAux p rest)

/-- Model of `Categorizer.categorize` (lines 67-92): score every category, keep the positive
scores in table order, return the max-scoring key or `"uncategorized"`. -/
def Categorizer.categorize (keywords : List (String × List String)) (metadata : Metadata) :
    String :=
  let combined_text := Categorizer.combinedText metadata
  let category_scores :=
    (keywords.map (fun p => (p.1, Categorizer.score p.2 combined_text))).filter
      (fun p => 0 < p.2)
  match pyMax category_scores with
  | some p => p.1
  | none => "uncategorized"

/-! ### Naming policy (src/scraper.py:125-158) -/

/-- The list `config.SUPPORTED_FORMATS`. -/
def SUPPORTED_FORMATS : List String := [".jpg", ".jpeg", ".png", ".webp", ".bmp"]

/-- Python `\w` (word character), modelled over the ASCII range the claims use. -/
def isWordChar (c : Char) : Bool := c.isAlphanum || c = '_'

/-- A character matched by the class `[-\s]`. -/
def isSpaceDash (c : Char) : Bool := c = '-' || c.isWhitespace

/-- Model of `re.sub(r'[-\s]+', '_', s)`: each maximal run of `[-\s]` becomes one underscore. -/
def collapseRuns : List Char → List Char
  | [] => []
  | c :: rest =>
    if isSpaceDash c then '_' :: collapseRuns (rest.dropWhile isSpaceDash)
    else c :: collapseRuns rest
termination_by l => l.length
decreasing_by
  · simp only [List.length_cons]
    exact Nat.lt_succ_of_le (List.dropWhile_suffix _).length_le
  · simp

/-- Lines 154-155: strip characters outside `[\w\s-]`, collapse `[-\s]` runs to `_`,
truncate to 50 characters. -/
def sanitizeTitle (t : String) : String :=
  let cleaned := t.toList.filter (fun c => isWordChar c || c.isWhitespace || c = '-')
  String.mk ((collapseRuns cleaned).take 50)

/-- Model of `WallpaperScraper._generate_filename` (lines 146-158). -/
def generate_filename (url : String) (metadata : Metadata) (extension : String) : String :=
  let url_hash := (md5hex (strBytes url)).take 8
  match metadata.title with
  | some t =>
    if t = "" then "wallpaper_" ++ url_hash ++ extension
    else sanitizeTitle t ++ "_" ++ url_hash ++ extension
  | none => "wallpaper_" ++ url_hash ++ extension

/-- Model of `WallpaperScraper._get_image_extension` (lines 125-144). `urlPath` models the
external `urllib.parse.urlparse(url).path`; `content_type` is the header value,
`""` when absent (Python falsy). -/
def get_image_extension (urlPath : String → String) (url : String) (content_type : String) :
    String :=
  let fromCT : Option String :=
    if content_type ≠ "" then
      if content_type = "image/jpeg" then some ".jpg"
      else if content_type = "image/png" then some ".png"
      else if content_type = "image/webp" then some ".webp"
      else if content_type = "image/bmp" then some ".bmp"
      else none
    else none
  match fromCT with
  | some e => e
  | none =>
    let path := pyLower (urlPath url)
    match SUPPORTED_FORMATS.find? (fun ext => strEndsWith path ext) with
    | some e => e
    | none => ".jpg"

/-! ### ImageFilter (src/scraper.py:18-58)

`decode` models the external `PIL.Image.open(...).size`: `none` when decoding
raises, `some (width, height)` otherwise.  The aspect fields are the source's
`min_aspect_ratio` / `max_aspect_ratio`; Python float division is modelled over ℚ
(the claims proved here never depend on rounding). -/

structure ImageFilter where
  min_width : Nat
  min_height : Nat
  min_aspect : ℚ
  max_aspect : ℚ
  min_file_size : Nat

set_option linter.unusedVariables false in
/-- Model of `ImageFilter.check_image` (lines 35-58). An exception from decoding is the
`none` branch (the `except` arm returns `False`); `metadata` is accepted and
ignored, exactly as in the source. -/
def ImageFilter.check_image (f : ImageFilter) (decode : List Nat → Option (Nat × Nat))
    (image_data : List Nat) (metadata : Metadata) : Bool :=
  if image_data.length < f.min_file_size then false
  else
    match decode image_data with
    | none => false
    | some (width, height) =>
      if width < f.min_width ∨ height < f.min_height then false
      else
        let aspect : ℚ := if 0 < height then (width : ℚ) / (height : ℚ) else 0
        if aspect < f.min_aspect ∨ aspect > f.max_aspect then false
        else true

/-- The filter built from `config.py` defaults (`1.5 = 3/2`, `100 * 1024`). -/
def defaultImageFilter : ImageFilter :=
  { min_width := 1920, min_height := 1080, min_aspect := 3 / 2, max_aspect := 3,
    min_file_size := 100 * 1024 }

/-! ### Fetch coordinator (src/scraper.py:95-272) -/

/-- One `progress_callback` invocation (lines 179-180, 203-204, 216-229). -/
inductive Event
  | filtered (url : String)
  | downloaded (url : String) (filepath : String)
  | failed (url : String) (detail : String)
deriving DecidableEq

/-- The dict `self.stats` (lines 117-123): the four counters plus the category histogram,
an insertion-ordered dict. -/
structure Stats where
  total : Nat
  downloaded : Nat
  filtered : Nat
  failed : Nat
  categories : List (String × Nat)
deriving DecidableEq

/-- The zeroed statistics dict built by `WallpaperScraper.__init__` (lines 117-123). -/
def initStats : Stats :=
  { total := 0, downloaded := 0, filtered := 0, failed := 0, categories := [] }

/-- Line 201, `d[category] = d.get(category, 0) + 1` on an insertion-ordered dict:
update in place when present, append when absent. -/
def bumpCategory : List (String × Nat) → String → List (String × Nat)
  | [], c => [(c, 1)]
  | (k, v) :: rest, c =>
    if k = c then (k, v + 1) :: rest else (k, v) :: bumpCategory rest c

/-- The environment's behavior for one candidate's fetch: either an exception
(`aiohttp.ClientError`, `OSError`, or any other — the three `except` arms at lines
213-230 all increment `failed` and emit a `failed` event), or an HTTP response
with a status code, a content-type header (`""` when absent), the body bytes, and
whether the filesystem writes at lines 186-197 succeed. -/
inductive FetchOutcome
  | exn (detail : String)
  | resp (status : Nat) (content_type : String) (body : List Nat) (writeOk : Bool)
deriving DecidableEq

/-- The dict returned by a successful `download_image` (lines 206-211). -/
structure DownloadInfo where
  url : String
  filepath : String
  category : String
  size : Nat
deriving DecidableEq

/-- The scraper's configuration: constructor arguments of `WallpaperScraper`
(lines 98-113) plus the modelled external libraries (PIL decoding, urlparse). -/
structure ScraperCfg where
  output_dir : String
  filter : ImageFilter
  keywords : List (String × List String)
  decode : List Nat → Option (Nat × Nat)
  urlPath : String → String

/-- Model of `WallpaperScraper.download_image` (lines 160-230) on one candidate, as a
function of the environment's `FetchOutcome`: the result dict (`none` on the
non-200 drop, on filtering, and on failure), the updated statistics, and the
emitted progress events.  Line 165 merges the url into the metadata first. -/
def download_image (cfg : ScraperCfg) (url : String) (metadata : Metadata)
    (outcome : FetchOutcome) (stats : Stats) : Option DownloadInfo × Stats × List Event :=
  let md := { metadata with url := some url }
  match outcome with
  | .exn detail =>
    (none, { stats with failed := stats.failed + 1 }, [.failed url detail])
  | .resp status content_type body writeOk =>
    if status ≠ 200 then (none, stats, [])
    else if ¬ cfg.filter.check_image cfg.decode body md then
      (none, { stats with filtered := stats.filtered + 1 }, [.filtered url])
    else
      let category := Categorizer.categorize cfg.keywords md
      let extension := get_image_extension cfg.urlPath url content_type
      let fname := generate_filename url md extension
      let filepath := cfg.output_dir ++ "/" ++ category ++ "/" ++ fname
      if writeOk then
        (some { url := url, filepath := filepath, category := category, size := body.length },
         { stats with downloaded := stats.downloaded + 1,
                      categories := bumpCategory stats.categories category },
         [.downloaded url filepath])
      else
        (none, { stats with failed := stats.failed + 1 }, [.failed url "File error"])

/-- One candidate of `WallpaperScraper.download_images` (lines 232-264): the
per-task `bounded_download`, threading the shared statistics and the event
stream.  The `asyncio.gather` interleaving is modelled as a sequential fold:
each statistics update in `download_image` is a read-modify-write with no
intervening `await`, so it is atomic under the cooperative event loop and the
final counters are the same for every interleaving. -/
def runStep (cfg : ScraperCfg) (acc : Stats × List Event)
    (c : String × Metadata × FetchOutcome) : Stats × List Event :=
  let r := download_image cfg c.1 c.2.1 c.2.2 acc.1
  (r.2.1, acc.2 ++ r.2.2)

/-- The coordinator entry point: set `total`, then fold `runStep` over the
candidates (see the modelling note on `runStep`). -/
def download_images (cfg : ScraperCfg)
    (candidates : List (String × Metadata × FetchOutcome)) (stats : Stats) :
    Stats × List Event :=
  let stats0 := { stats with total := candidates.length }
  candidates.foldl (runStep cfg) (stats0, [])

/-! ### Page extractor (src/scraper.py:275-303) -/

/-- The relevant attributes of one parsed `<img>` element (`none` = absent). -/
structure ImgElement where
  src : Option String := none
  dataSrc : Option String := none
  title : Option String := none
  alt : Option String := none
deriving DecidableEq

/-- Python truthiness of `img.get(attr)`: `None` and `""` are falsy. -/
def truthy : Option String → Bool
  | none => false
  | some s => s ≠ ""

/-- Line 283, `img.get('src') or img.get('data-src')`: Python `or` yields its left
operand when truthy, otherwise its right operand (even if that is falsy). -/
def chooseSrc (img : ImgElement) : Option String :=
  if truthy img.src then img.src else img.dataSrc

/-- The body of the `for img in soup.find_all('img')` loop (lines 282-301) for one
element: `none` when the `continue` branches fire.  `validURL` models the external
`validators.url`, `join` models `urllib.parse.urljoin`. -/
def extractOne (validURL : String → Bool) (join : String → String → String)
    (base_url : Option String) (img : ImgElement) : Option (String × Metadata) :=
  match chooseSrc img with
  | none => none
  | some src =>
    if src = "" then none
    else
      let src := match base_url with
        | some b => if ¬ strStartsWith src "http" then join b src else src
        | none => src
      if ¬ validURL src then none
      else
        some (src, { title := some (img.title.getD ""), alt := some (img.alt.getD ""),
                     description := some "", url := none })

/-- Model of `extract_image_urls` (lines 275-303) over the parsed `<img>` elements in
document order (BeautifulSoup's parsing itself is external to the module). -/
def extract_image_urls (validURL : String → Bool) (join : String → String → String)
    (base_url : Option String) (imgs : List ImgElement) : List (String × Metadata) :=
  imgs.filterMap (extractOne validURL join base_url)

/-! ### Bounded concurrency (src/scraper.py:250-261)

`download_images` wraps each candidate in `bounded_download`, which enters
`async with semaphore` for `semaphore = asyncio.Semaphore(self.concurrent_downloads)`
before awaiting `download_image`.  `asyncio.Semaphore(k)` admits an acquirer only
while fewer than `k` holders exist.  The event loop's interleaving of the tasks is
modelled as a transition system: each task is pending (queued at the semaphore),
fetching (inside the `async with`, i.e. in flight), or done. -/

/-- The per-candidate position in the `Pending → Fetching → terminal` lifecycle. -/
inductive TaskState
  | pending
  | fetching
  | done
deriving DecidableEq

/-- The number of tasks currently holding the semaphore (in the Fetching state). -/
def inFlight (ts : List TaskState) : Nat := ts.count TaskState.fetching

/-- One scheduler step at semaphore capacity `k`: a pending task may start fetching
only while fewer than `k` tasks are in flight; a fetching task may finish. -/
inductive SemStep (k : Nat) : List TaskState → List TaskState → Prop
  | acquire (ts : List TaskState) (i : Nat) (hi : ts[i]? = some TaskState.pending)
      (hk : inFlight ts < k) : SemStep k ts (ts.set i TaskState.fetching)
  | release (ts : List TaskState) (i : Nat) (hi : ts[i]? = some TaskState.fetching) :
      SemStep k ts (ts.set i TaskState.done)

/-- The schedules reachable from `n` queued candidates. -/
def SemReachable (k n : Nat) (ts : List TaskState) : Prop :=
  Relation.ReflTransGen (SemStep k) (List.replicate n TaskState.pending) ts

/-! ### Auxiliary definitions used by the theorems -/

/-- The score of every category in table order (line 84's loop before the
positive-score filter). -/
def catScores (keywords : List (String × List String)) (metadata : Metadata) :
    List (String × Nat) :=
  keywords.map (fun p => (p.1, Categorizer.score p.2 (Categorizer.combinedText metadata)))

/-- A concrete run configuration used in closed-form runs: defaults from
`config.py`, a decoder that always fails, an empty URL path. -/
def cfgEx : ScraperCfg :=
  { output_dir := "wallpapers", filter := defaultImageFilter, keywords := CATEGORY_KEYWORDS,
    decode := fun _ => none, urlPath := fun _ => "" }

/-- A filter with every bound zero or slack, so that an empty body passes. -/
def slackFilter : ImageFilter :=
  { min_width := 0, min_height := 0, min_aspect := 0, max_aspect := 10, min_file_size := 0 }

/-- A run configuration whose filter accepts the empty body: `slackFilter`, with
every body decoding to a degenerate 5×0 image (which `slackFilter` accepts, the
aspect ratio being taken as 0 — see the C6 counterexample). -/
def cfgPass : ScraperCfg :=
  { output_dir := "wallpapers", filter := slackFilter, keywords := CATEGORY_KEYWORDS,
    decode := fun _ => some (5, 0), urlPath := fun _ => "" }

/-- A candidate that downloads successfully under `cfgPass`. -/
def okCand : String × Metadata × FetchOutcome :=
  ("u", {}, FetchOutcome.resp 200 "" [] true)

/-- The statistics of a one-candidate run whose only response is HTTP 500. -/
def http500Run : Stats :=
  (download_images cfgEx
    [("http://img.example.com/a.jpg", {}, FetchOutcome.resp 500 "" [] true)] initStats).1

/-- An `<img>` element carrying an empty `src` and a well-formed `data-src`. -/
def imgElC8 : ImgElement :=
  { src := some "", dataSrc := some "http://x.com/a.jpg" }

/-- The largest score in a score list (`0` on the empty list). -/
def maxScore (scores : List (String × Nat)) : Nat :=
  scores.foldr (fun p acc => max p.2 acc) 0

/-- Modelled from the spec's §4.2 wording: "Returns the category with the maximum
score; ties are broken by the table's iteration order (first maximal entry
encountered)... If every category scores 0, returns `uncategorized`."  Used as
the reference point the source's `categorize` is compared against. -/
def categorizeSpec (keywords : List (String × List String)) (metadata : Metadata) : String :=
  let scores := catScores keywords metadata
  if maxScore scores = 0 then "uncategorized"
  else
    match scores.find? (fun p => p.2 = maxScore scores) with
    | some p => p.1
    | none => "uncategorized"

/-- The number of downloads a run contributes on its own (each candidate's
`download_image` effect measured from zeroed statistics). -/
def runDownloaded (cfg : ScraperCfg) : List (String × Metadata × FetchOutcome) → Nat
  | [] => 0
  | c :: rest =>
    (download_image cfg c.1 c.2.1 c.2.2 initStats).2.1.downloaded + runDownloaded cfg rest

/-- The number of filtered candidates a run contributes on its own. -/
def runFiltered (cfg : ScraperCfg) : List (String × Metadata × FetchOutcome) → Nat
  | [] => 0
  | c :: rest =>
    (download_image cfg c.1 c.2.1 c.2.2 initStats).2.1.filtered + runFiltered cfg rest

/-- The number of failed candidates a run contributes on its own. -/
def runFailed (cfg : ScraperCfg) : List (String × Metadata × FetchOutcome) → Nat
  | [] => 0
  | c :: rest =>
    (download_image cfg c.1 c.2.1 c.2.2 initStats).2.1.failed + runFailed cfg rest

/-!
## Theorems
-/

set_option maxRecDepth 4096 in
/-- RFC 1321 test vector: MD5 of the empty string. -/
theorem md5hex_empty : md5hex (strBytes "") = "d41d8cd98f00b204e9800998ecf8427e" := by decide

set_option maxRecDepth 4096 in
/-- RFC 1321 test vector: MD5 of "abc". -/
theorem md5hex_abc : md5hex (strBytes "abc") = "900150983cd24fb0d6963f7d28e17f72" := by decide

/-- C2: on any HTTP response whose status is not 200, `download_image` returns
`None`, leaves every statistics field — `downloaded`, `filtered`, `failed` and the
category histogram — unchanged, and emits no progress event for the candidate. -/
theorem C2_non200_drops_silently (cfg : ScraperCfg) (url : String) (metadata : Metadata)
    (status : Nat) (content_type : String) (body : List Nat) (writeOk : Bool) (stats : Stats)
    (h : status ≠ 200) :
    download_image cfg url metadata (FetchOutcome.resp status content_type body writeOk) stats
      = (none, stats, []) := by
  simp [download_image, h]

/-- Witness for C2 at a concrete HTTP 500 response. -/
theorem C2_non200_drops_silently_witness :
    download_image cfgEx "http://img.example.com/a.jpg" {}
      (FetchOutcome.resp 500 "" [] true) initStats = (none, initStats, []) :=
  C2_non200_drops_silently cfgEx "http://img.example.com/a.jpg" {} 500 "" [] true initStats
    (by decide)

/-- C1 (code bug, the spec's §9 status-code gap): a run over one candidate
answered with HTTP 500 ends with `downloaded + filtered + failed = 0` yet
`total = 1`, so the claimed invariant `downloaded + filtered + failed == total`
fails on the code. -/
theorem C1_invariant_fails_on_non200 :
    http500Run.downloaded + http500Run.filtered + http500Run.failed ≠ http500Run.total := by
  decide

/-- C5: a byte buffer strictly shorter than `min_file_size` is rejected by
`check_image` regardless of the decoded dimensions. -/
theorem C5_small_buffer_rejected (f : ImageFilter) (decode : List Nat → Option (Nat × Nat))
    (image_data : List Nat) (metadata : Metadata)
    (h : image_data.length < f.min_file_size) :
    f.check_image decode image_data metadata = false := by
  simp [ImageFilter.check_image, h]

/-- Witness for C5: 50,000 bytes decoding to 3840×2160 under the claim's
configuration (the `config.py` defaults, `min_file_size = 100 * 1024`) are
rejected even though the dimensions pass. -/
theorem C5_small_buffer_rejected_witness :
    defaultImageFilter.check_image (fun _ => some (3840, 2160)) (List.replicate 50000 0) {}
      = false :=
  C5_small_buffer_rejected defaultImageFilter (fun _ => some (3840, 2160))
    (List.replicate 50000 0) {} (by norm_num [defaultImageFilter])

/-- C6 counterexample: under a configuration with `min_height = 0` and
`min_aspect_ratio = 0`, a buffer decoding to height 0 is accepted, so "a height-0
image is always rejected" does not hold for every filter configuration. -/
theorem C6_counterexample :
    slackFilter.check_image (fun _ => some (1, 0)) [] {} = true := by decide

/-- C6 amended: whenever `min_aspect_ratio` is positive — as in the shipped
defaults — a buffer whose decoded height is 0 is always rejected: the aspect
ratio is taken to be 0, which fails the lower aspect bound whenever an earlier
check has not already rejected the buffer. -/
theorem C6_amended_height0_rejected (f : ImageFilter) (decode : List Nat → Option (Nat × Nat))
    (image_data : List Nat) (metadata : Metadata) (width : Nat)
    (ha : 0 < f.min_aspect) (hd : decode image_data = some (width, 0)) :
    f.check_image decode image_data metadata = false := by
  simp only [ImageFilter.check_image, hd]
  split
  · rfl
  · split
    · rfl
    · simp [ha]

/-- Witness for C6 amended: a 5000×0 decode under the default configuration. -/
theorem C6_amended_height0_rejected_witness :
    defaultImageFilter.check_image (fun _ => some (5000, 0)) [] {} = false :=
  C6_amended_height0_rejected defaultImageFilter (fun _ => some (5000, 0)) [] {} 5000
    (by norm_num [defaultImageFilter]) rfl

set_option maxRecDepth 8192 in
/-- C7 counterexample: a second `download_images` run on the same scraper state
does not start from zeroed counters: after a first successful one-candidate run
`downloaded = 1`, and the second run's returned snapshot shows `downloaded = 2`,
not the `1` a fresh, zeroed aggregator would report. -/
theorem C7_counterexample :
    (download_images cfgPass [okCand] initStats).1.downloaded = 1 ∧
    (download_images cfgPass [okCand]
        (download_images cfgPass [okCand] initStats).1).1.downloaded = 2 := by decide

set_option maxRecDepth 8192 in
/-- C4 counterexample: two distinct URLs whose MD5 digests share their first 8 hex
characters (`319a8cc6`) receive identical filenames from the naming policy, even
with identical (absent) titles and the same extension. -/
theorem C4_counterexample :
    "http://img.example.com/10286.jpg" ≠ "http://img.example.com/113636.jpg" ∧
    generate_filename "http://img.example.com/10286.jpg" {} ".jpg"
      = generate_filename "http://img.example.com/113636.jpg" {} ".jpg" := by decide

/-- C8 counterexample: for an element whose `src` attribute is present but empty
and whose `data-src` holds a well-formed URL, the extractor takes the URL from
`data-src` even though `src` is present (Python `or` falls through on the falsy
empty string), contradicting "from `src` whenever `src` is present". -/
theorem C8_counterexample :
    imgElC8.src = some "" ∧
    extract_image_urls (fun _ => true) (fun _ s => s) none [imgElC8]
      = [("http://x.com/a.jpg",
          { title := some "", alt := some "", description := some "", url := none })] := by
  decide

/-- C10: the metadata argument has no influence on `ImageFilter.check_image`: for
every configuration, decoder, and byte buffer, the accept/reject decision is the
same for any two metadata arguments. -/
theorem C10_metadata_noninterference (f : ImageFilter)
    (decode : List Nat → Option (Nat × Nat)) (image_data : List Nat)
    (md1 md2 : Metadata) :
    f.check_image decode image_data md1 = f.check_image decode image_data md2 := rfl

/-- Cancelling a common front and back around a string's middle component. -/
theorem append_mid_inj (p m1 m2 e : String) (h : p ++ m1 ++ e = p ++ m2 ++ e) : m1 = m2 := by
  have hd := congrArg String.data h
  simp only [String.data_append, List.append_assoc] at hd
  exact String.ext (List.append_cancel_right (List.append_cancel_left hd))

/-- C4 amended: the hash component disambiguates exactly when it differs — two
URLs whose 8-character truncated MD5 digests differ receive distinct filenames,
for any shared metadata and extension.  (By `C4_counterexample`, distinctness of
the URLs alone does not suffice: the truncated hash can collide.) -/
theorem C4_amended_distinct_hash (u1 u2 : String) (metadata : Metadata) (extension : String)
    (h : (md5hex (strBytes u1)).take 8 ≠ (md5hex (strBytes u2)).take 8) :
    generate_filename u1 metadata extension ≠ generate_filename u2 metadata extension := by
  intro heq
  apply h
  cases hmt : metadata.title with
  | none =>
    simp only [generate_filename, hmt] at heq
    exact append_mid_inj "wallpaper_" _ _ extension heq
  | some t =>
    by_cases ht : t = ""
    · simp only [generate_filename, hmt, ht, if_pos] at heq
      exact append_mid_inj "wallpaper_" _ _ extension heq
    · simp only [generate_filename, hmt, if_neg ht] at heq
      exact append_mid_inj (sanitizeTitle t ++ "_") _ _ extension (by
        simpa [String.append_assoc] using heq)

set_option maxRecDepth 8192 in
/-- Witness for C4 amended: "a" and "b" hash to different 8-character components,
so their filenames differ. -/
theorem C4_amended_distinct_hash_witness :
    generate_filename "a" {} ".jpg" ≠ generate_filename "b" {} ".jpg" :=
  C4_amended_distinct_hash "a" "b" {} ".jpg" (by decide)

/-- C8 amended: the primary `src` wins only when it is present and non-empty; the
extractor falls back to `data-src` whenever `src` is absent **or empty** (Python
`or` on a falsy value); and an element whose chosen source is absent or empty is
skipped entirely. -/
theorem C8_amended_src_choice (img : ImgElement) :
    (∀ s, img.src = some s → s ≠ "" → chooseSrc img = some s) ∧
    (img.src = none ∨ img.src = some "" → chooseSrc img = img.dataSrc) ∧
    (∀ (validURL : String → Bool) (join : String → String → String)
       (base_url : Option String) (rest : List ImgElement),
      chooseSrc img = none ∨ chooseSrc img = some "" →
      extract_image_urls validURL join base_url (img :: rest)
        = extract_image_urls validURL join base_url rest) := by
  refine ⟨?_, ?_, ?_⟩
  · intro s hs hne
    simp [chooseSrc, truthy, hs, hne]
  · rintro (h | h) <;> simp [chooseSrc, truthy, h]
  · intro v j b rest h
    have hnone : extractOne v j b img = none := by
      rcases h with h | h <;> simp [extractOne, h]
    simp [extract_image_urls, List.filterMap_cons, hnone]

/-- Witness for C8 amended, covering its three implications at concrete elements. -/
theorem C8_amended_src_choice_witness :
    chooseSrc { src := some "", dataSrc := some "u" } = some "u" ∧
    chooseSrc { src := some "s", dataSrc := none, title := none, alt := none } = some "s" ∧
    extract_image_urls (fun _ => true) (fun _ s => s) none
      [{ src := some "", dataSrc := none, title := none, alt := none }] = [] := by
  refine ⟨?_, ?_, ?_⟩
  · exact (C8_amended_src_choice _).2.1 (Or.inr rfl)
  · exact (C8_amended_src_choice _).1 "s" rfl (by decide)
  · exact (C8_amended_src_choice _).2.2 _ _ _ [] (Or.inl (by decide))

/-- Helper: one `download_image` call adds to each counter exactly what the same
call adds starting from zeroed statistics, and never touches `total`. -/
theorem download_image_additive (cfg : ScraperCfg) (url : String) (metadata : Metadata)
    (outcome : FetchOutcome) (stats : Stats) :
    (download_image cfg url metadata outcome stats).2.1.downloaded
      = stats.downloaded + (download_image cfg url metadata outcome initStats).2.1.downloaded ∧
    (download_image cfg url metadata outcome stats).2.1.filtered
      = stats.filtered + (download_image cfg url metadata outcome initStats).2.1.filtered ∧
    (download_image cfg url metadata outcome stats).2.1.failed
      = stats.failed + (download_image cfg url metadata outcome initStats).2.1.failed ∧
    (download_image cfg url metadata outcome stats).2.1.total = stats.total := by
  cases outcome with
  | exn detail => simp [download_image, initStats]
  | resp status content_type body writeOk =>
    simp only [download_image]
    split_ifs <;> simp [initStats]

/-- Helper: the coordinator's fold adds each run's own contribution on top of the
statistics it starts from, and leaves `total` as it found it. -/
theorem download_fold_additive (cfg : ScraperCfg) :
    ∀ (cands : List (String × Metadata × FetchOutcome)) (stats : Stats) (evs : List Event),
      (cands.foldl (runStep cfg) (stats, evs)).1.downloaded
        = stats.downloaded + runDownloaded cfg cands ∧
      (cands.foldl (runStep cfg) (stats, evs)).1.filtered
        = stats.filtered + runFiltered cfg cands ∧
      (cands.foldl (runStep cfg) (stats, evs)).1.failed
        = stats.failed + runFailed cfg cands ∧
      (cands.foldl (runStep cfg) (stats, evs)).1.total = stats.total
  | [], stats, evs => by simp [runDownloaded, runFiltered, runFailed]
  | c :: rest, stats, evs => by
    obtain ⟨i1, i2, i3, i4⟩ := download_fold_additive cfg rest
      (download_image cfg c.1 c.2.1 c.2.2 stats).2.1
      (evs ++ (download_image cfg c.1 c.2.1 c.2.2 stats).2.2)
    obtain ⟨o1, o2, o3, o4⟩ := download_image_additive cfg c.1 c.2.1 c.2.2 stats
    simp only [List.foldl_cons, runStep, runDownloaded, runFiltered, runFailed]
    refine ⟨?_, ?_, ?_, ?_⟩
    · rw [i1, o1]; omega
    · rw [i2, o2]; omega
    · rw [i3, o3]; omega
    · rw [i4, o4]

/-- C7 amended: the statistics are zeroed only when the `WallpaperScraper` is
constructed; `download_images` overwrites `total` with the candidate count but
does not re-zero the other counters, which accumulate on top of whatever the
object already holds, so only the first run on a fresh object reflects just that
run. -/
theorem C7_amended_stats_accumulate (cfg : ScraperCfg)
    (cands : List (String × Metadata × FetchOutcome)) (stats : Stats) :
    initStats.downloaded = 0 ∧ initStats.filtered = 0 ∧ initStats.failed = 0 ∧
    initStats.categories = [] ∧
    (download_images cfg cands stats).1.total = cands.length ∧
    (download_images cfg cands stats).1.downloaded
      = stats.downloaded + runDownloaded cfg cands ∧
    (download_images cfg cands stats).1.filtered
      = stats.filtered + runFiltered cfg cands ∧
    (download_images cfg cands stats).1.failed
      = stats.failed + runFailed cfg cands := by
  obtain ⟨h1, h2, h3, h4⟩ :=
    download_fold_additive cfg cands { stats with total := cands.length } []
  refine ⟨rfl, rfl, rfl, rfl, ?_, ?_, ?_, ?_⟩
  · simp only [download_images]; rw [h4]
  · simp only [download_images]; rw [h1]
  · simp only [download_images]; rw [h2]
  · simp only [download_images]; rw [h3]

/-- Helper: admitting a pending task increments the in-flight count by one. -/
theorem inFlight_set_fetching :
    ∀ (ts : List TaskState) (i : Nat), ts[i]? = some TaskState.pending →
      inFlight (ts.set i TaskState.fetching) = inFlight ts + 1
  | [], i, h => by simp at h
  | t :: ts, 0, h => by
    simp only [List.getElem?_cons_zero, Option.some.injEq] at h
    subst h
    simp [inFlight]
  | t :: ts, i + 1, h => by
    simp only [List.getElem?_cons_succ] at h
    have ih := inFlight_set_fetching ts i h
    simp only [inFlight, List.set_cons_succ, List.count_cons] at ih ⊢
    omega

/-- Helper: finishing a fetching task decrements the in-flight count by one. -/
theorem inFlight_set_done :
    ∀ (ts : List TaskState) (i : Nat), ts[i]? = some TaskState.fetching →
      inFlight (ts.set i TaskState.done) + 1 = inFlight ts
  | [], i, h => by simp at h
  | t :: ts, 0, h => by
    simp only [List.getElem?_cons_zero, Option.some.injEq] at h
    subst h
    simp [inFlight]
  | t :: ts, i + 1, h => by
    simp only [List.getElem?_cons_succ] at h
    have ih := inFlight_set_done ts i h
    simp only [inFlight, List.set_cons_succ, List.count_cons] at ih ⊢
    omega

/-- C9: with `concurrent_downloads = k`, every schedule reachable from `n` queued
candidates keeps at most `k` candidates simultaneously in the Fetching state
(in flight past the semaphore). -/
theorem C9_at_most_k_in_flight (k n : Nat) (ts : List TaskState)
    (h : SemReachable k n ts) : inFlight ts ≤ k := by
  simp only [SemReachable] at h
  induction h with
  | refl =>
    have h0 : inFlight (List.replicate n TaskState.pending) = 0 := by
      simp [inFlight, List.count_replicate]
    omega
  | tail _ step ih =>
    cases step with
    | acquire i hi hk => rw [inFlight_set_fetching _ i hi]; omega
    | release i hi =>
      have hrel := inFlight_set_done _ i hi
      omega

/-- Witness for C9: with `k = 2` and 5 blocked candidates, the schedule that has
admitted tasks 0 and 1 is reachable and has at most 2 fetches in flight. -/
theorem C9_at_most_k_in_flight_witness :
    inFlight (((List.replicate 5 TaskState.pending).set 0 TaskState.fetching).set 1
      TaskState.fetching) ≤ 2 :=
  C9_at_most_k_in_flight 2 5 _
    (Relation.ReflTransGen.tail
      (Relation.ReflTransGen.tail Relation.ReflTransGen.refl
        (SemStep.acquire _ 0 (by decide) (by decide)))
      (SemStep.acquire _ 1 (by decide) (by decide)))

/-- Unfolding of `maxScore` on a cons. -/
theorem maxScore_cons (p : String × Nat) (l : List (String × Nat)) :
    maxScore (p :: l) = max p.2 (maxScore l) := rfl

/-- Every listed score is bounded by `maxScore`. -/
theorem le_maxScore_of_mem :
    ∀ {l : List (String × Nat)} {p : String × Nat}, p ∈ l → p.2 ≤ maxScore l
  | q :: t, p, h => by
    rcases List.mem_cons.1 h with rfl | hmem
    · rw [maxScore_cons]
      omega
    · have := le_maxScore_of_mem hmem
      rw [maxScore_cons]
      omega

/-- Dropping the zero-scored entries does not change the maximal score. -/
theorem maxScore_filter_pos : ∀ l : List (String × Nat),
    maxScore (l.filter (fun p => 0 < p.2)) = maxScore l
  | [] => rfl
  | p :: t => by
    by_cases hp : 0 < p.2
    · rw [List.filter_cons_of_pos (by simpa using hp), maxScore_cons, maxScore_cons,
        maxScore_filter_pos t]
    · have hp0 : p.2 = 0 := by omega
      rw [List.filter_cons_of_neg (by simpa using hp), maxScore_cons,
        maxScore_filter_pos t]
      omega

/-- Helper: `find?` depends only on the predicate's values on the list's elements. -/
theorem find_congr {α : Type} (P Q : α → Bool) :
    ∀ l : List α, (∀ x ∈ l, P x = Q x) → l.find? P = l.find? Q
  | [], _ => rfl
  | a :: t, h => by
    have ha := h a (List.mem_cons_self a t)
    by_cases hPa : P a = true
    · rw [List.find?_cons_of_pos _ hPa, List.find?_cons_of_pos _ (ha ▸ hPa)]
    · have hQa : ¬ Q a = true := by rw [← ha]; exact hPa
      rw [List.find?_cons_of_neg _ hPa, List.find?_cons_of_neg _ hQa]
      exact find_congr P Q t (fun x hx => h x (List.mem_cons_of_mem a hx))

/-- Filtering by a predicate implied by `P` does not change the first `P`-match. -/
theorem find_filter_of_imp {α : Type} (P Q : α → Bool)
    (himp : ∀ x, P x = true → Q x = true) :
    ∀ l : List α, (l.filter Q).find? P = l.find? P
  | [] => rfl
  | a :: t => by
    by_cases hQ : Q a = true
    · rw [List.filter_cons_of_pos hQ]
      by_cases hP : P a = true
      · rw [List.find?_cons_of_pos _ hP, List.find?_cons_of_pos _ hP]
      · rw [List.find?_cons_of_neg _ hP, List.find?_cons_of_neg _ hP,
          find_filter_of_imp P Q himp t]
    · have hP : ¬ P a = true := fun hx => hQ (himp a hx)
      rw [List.filter_cons_of_neg hQ, List.find?_cons_of_neg _ hP,
        find_filter_of_imp P Q himp t]

/-- Python's `max(..., key=...)` loop returns the first element of `best :: l`
attaining the maximal value. -/
theorem pyMaxAux_eq_find :
    ∀ (l : List (String × Nat)) (best : String × Nat),
      (best :: l).find? (fun q => decide (maxScore (best :: l) ≤ q.2))
        = some (pyMaxAux best l)
  | [], best => by
    have hP : decide (maxScore [best] ≤ best.2) = true := by
      simp [maxScore]
    rw [List.find?_cons_of_pos
      (p := fun (q : String × Nat) => decide (maxScore [best] ≤ q.2)) _ hP]
    rfl
  | p :: rest, best => by
    have hple : p.2 ≤ maxScore (p :: rest) := by
      rw [maxScore_cons]
      omega
    by_cases hb : best.2 < p.2
    · have ih := pyMaxAux_eq_find rest p
      have hM : maxScore (best :: p :: rest) = maxScore (p :: rest) := by
        rw [maxScore_cons best, maxScore_cons p]
        rw [maxScore_cons p] at hple
        omega
      have hPb : ¬ maxScore (best :: p :: rest) ≤ best.2 := by omega
      simp only [pyMaxAux, if_pos hb]
      rw [List.find?_cons_of_neg
        (p := fun (q : String × Nat) => decide (maxScore (best :: p :: rest) ≤ q.2)) _
        (by simpa using hPb)]
      simp only [hM]
      exact ih
    · have ih := pyMaxAux_eq_find rest best
      have hM : maxScore (best :: p :: rest) = maxScore (best :: rest) := by
        rw [maxScore_cons best, maxScore_cons p, maxScore_cons best]
        omega
      simp only [pyMaxAux, if_neg hb]
      by_cases hPb : maxScore (best :: p :: rest) ≤ best.2
      · rw [List.find?_cons_of_pos
          (p := fun (q : String × Nat) => decide (maxScore (best :: p :: rest) ≤ q.2)) _
          (by simpa using hPb)]
        have h2 : maxScore (best :: rest) ≤ best.2 := by omega
        rw [List.find?_cons_of_pos
          (p := fun (q : String × Nat) => decide (maxScore (best :: rest) ≤ q.2)) _
          (by simpa using h2)] at ih
        exact ih
      · have h2 : ¬ maxScore (best :: p :: rest) ≤ p.2 := by omega
        have h3 : ¬ maxScore (best :: rest) ≤ best.2 := by omega
        rw [List.find?_cons_of_neg
            (p := fun (q : String × Nat) => decide (maxScore (best :: p :: rest) ≤ q.2)) _
            (by simpa using hPb),
          List.find?_cons_of_neg
            (p := fun (q : String × Nat) => decide (maxScore (best :: p :: rest) ≤ q.2)) _
            (by simpa using h2)]
        rw [List.find?_cons_of_neg
          (p := fun (q : String × Nat) => decide (maxScore (best :: rest) ≤ q.2)) _
          (by simpa using h3)] at ih
        simp only [hM]
        exact ih

/-- Helper: `categorize` as the Python `max` over the positively-scored entries. -/
theorem categorize_eq_pyMax (keywords : List (String × List String)) (metadata : Metadata) :
    Categorizer.categorize keywords metadata
      = match pyMax ((catScores keywords metadata).filter (fun p => 0 < p.2)) with
        | some p => p.1
        | none => "uncategorized" := rfl

/-- A score list whose maximum is 0 has no positively-scored entry. -/
theorem filter_pos_eq_nil_of_max0 (l : List (String × Nat)) (h0 : maxScore l = 0) :
    l.filter (fun p => 0 < p.2) = [] := by
  rw [List.filter_eq_nil_iff]
  intro p hp
  have := le_maxScore_of_mem hp
  simp only [decide_eq_true_eq]
  omega

/-- With a positive maximum, the Python `max` over the positive entries is the
spec's first maximal entry of the full table. -/
theorem pyMax_filter_eq_specFind (l : List (String × Nat)) (h0 : ¬ maxScore l = 0)
    (q : String × Nat) (t : List (String × Nat))
    (hfil : l.filter (fun p => 0 < p.2) = q :: t) :
    l.find? (fun p => decide (p.2 = maxScore l)) = some (pyMaxAux q t) := by
  have hm : maxScore (q :: t) = maxScore l := by rw [← hfil, maxScore_filter_pos]
  have hfind := pyMaxAux_eq_find t q
  simp only [hm] at hfind
  calc l.find? (fun p => decide (p.2 = maxScore l))
      = l.find? (fun p => decide (maxScore l ≤ p.2)) := by
        apply find_congr
        intro x hx
        have hle := le_maxScore_of_mem hx
        rw [decide_eq_decide]
        omega
    _ = (l.filter (fun p => 0 < p.2)).find? (fun p => decide (maxScore l ≤ p.2)) := by
        rw [find_filter_of_imp]
        intro x hx
        simp only [decide_eq_true_eq] at hx ⊢
        omega
    _ = (q :: t).find? (fun p => decide (maxScore l ≤ p.2)) := by rw [hfil]
    _ = some (pyMaxAux q t) := hfind

set_option maxRecDepth 4096 in
/-- C3 amended: `categorize` returns exactly what the spec's words describe —
the category with the maximal keyword-substring score over the concatenated
lower-cased metadata text, ties broken by the first maximal entry in table
order, with `"uncategorized"` returned whenever every category scores 0 — and
`{title: "Deep Space Nebula"}` maps to `"space"` under the default table.  The
claim's "exactly when" direction is weakened: a table that itself contains an
`"uncategorized"` entry can return that label with a positive score. -/
theorem C3_amended_first_max (keywords : List (String × List String)) (metadata : Metadata) :
    Categorizer.categorize keywords metadata = categorizeSpec keywords metadata ∧
    Categorizer.categorize CATEGORY_KEYWORDS { title := some "Deep Space Nebula" }
      = "space" := by
  refine ⟨?_, by decide⟩
  rw [categorize_eq_pyMax]
  by_cases h0 : maxScore (catScores keywords metadata) = 0
  · rw [filter_pos_eq_nil_of_max0 _ h0]
    simp [pyMax, categorizeSpec, h0]
  · cases hfil : (catScores keywords metadata).filter (fun p => 0 < p.2) with
    | nil =>
      exact absurd (by rw [← maxScore_filter_pos, hfil]; rfl) h0
    | cons q t =>
      have hfind := pyMax_filter_eq_specFind _ h0 q t hfil
      simp only [pyMax, categorizeSpec, if_neg h0, hfind]

set_option maxRecDepth 4096 in
/-- C3 counterexample: with the table `{"uncategorized": ["x"]}` and metadata
`{title: "x"}`, `categorize` returns `"uncategorized"` even though not every
category scores 0, refuting the claim's "exactly when every category scores 0". -/
theorem C3_counterexample :
    Categorizer.categorize [("uncategorized", ["x"])] { title := some "x" }
      = "uncategorized" ∧
    ¬ (∀ p ∈ catScores [("uncategorized", ["x"])] { title := some "x" }, p.2 = 0) := by
  decide

end Scraper
